import Mathlib

/-!
Verification of the rpmconf dnf plugin (plugins/rpm_conf.py): a shallow
embedding of the variant-resolution decision engine and its session
controller, with theorems checking the specification's claims.

The filesystem is modelled as a total map from path strings to a file
state: absent, a regular file with byte content (a `String`), or a broken
symbolic link.  The handlers `_handle_rpmnew` / `_handle_rpmsave` are
embedded as pure functions producing the list of filesystem / frontend
actions they perform; applying those actions to a filesystem gives the
resulting state.  The session controller `Rpmconf.transaction` is embedded
as a pure function whose `Except` result distinguishes an exception that
propagates to the host (`.error`) from a caught, non-propagating outcome
(`.ok`).
-/

namespace RpmConf

/-- State of one path in the modelled filesystem: missing, a regular file
with its byte content, or a symbolic link whose target does not exist. -/
inductive FileState
  | absent
  | regular (content : String)
  | brokenSymlink
deriving DecidableEq, Repr

/-- A filesystem: a total map from paths to file states. -/
abbrev Fs := String → FileState

/-- Embeds `rpmconf.RpmConf.is_broken_symlink` as used by the plugin: true
exactly when the path is a symbolic link with a missing target. -/
def is_broken_symlink (fs : Fs) (p : String) : Bool :=
  match fs p with
  | .brokenSymlink => true
  | _ => false

/-- Embeds the `filecmp.cmp(conf_file, other_file)` call of
`UnattendedRpmConf._test_duplicate`: byte-for-byte content comparison of
two regular files.  `none` models the `OSError` Python raises when either
path cannot be read as a regular file. -/
def filecmp_cmp (fs : Fs) (a b : String) : Option Bool :=
  match fs a, fs b with
  | .regular x, .regular y => some (x == y)
  | _, _ => none

/-- Embeds `UnattendedRpmConf._test_duplicate`: if either path is a broken
symlink the short-circuiting `and` skips the comparison and the method
returns `False`; otherwise the result is the byte comparison (whose
failure, `none`, propagates). -/
def test_duplicate (fs : Fs) (conf other : String) : Option Bool :=
  if is_broken_symlink fs conf || is_broken_symlink fs other then
    some false
  else
    filecmp_cmp fs conf other

/-- The plugin's `unattended` attribute after configuration: `unset` models
Python `None`, the rest the three validated strings. -/
inductive Unattended
  | unset
  | diff
  | maintainer
  | user
deriving DecidableEq, Repr

/-- One observable action of a handler: the File Action Executor primitives
(`_remove`, `_overwrite`), the frontend call `show_diff`, or deferral to
the base class interactive prompt flow (`super()._handle_rpmnew` /
`super()._handle_rpmsave`). -/
inductive Action
  | remove (p : String)
  | overwrite (src dst : String)
  | showDiff (a b : String)
  | promptRpmnew (conf other : String)
  | promptRpmsave (conf other : String)
deriving DecidableEq, Repr

/-- Embeds `UnattendedRpmConf._handle_rpmnew` as the list of actions it
performs; `none` models the exception propagating out of
`_test_duplicate`. -/
def handle_rpmnew (u : Unattended) (fs : Fs) (conf other : String) :
    Option (List Action) :=
  (test_duplicate fs conf other).map fun dup =>
    if dup then [.remove other]
    else
      match u with
      | .unset => [.promptRpmnew conf other]
      | .diff => [.showDiff conf other]
      | .maintainer => [.overwrite other conf]
      | .user => [.remove other]

/-- Embeds `UnattendedRpmConf._handle_rpmsave` as the list of actions it
performs; `none` models the exception propagating out of
`_test_duplicate`. -/
def handle_rpmsave (u : Unattended) (fs : Fs) (conf other : String) :
    Option (List Action) :=
  (test_duplicate fs conf other).map fun dup =>
    if dup then [.remove other]
    else
      match u with
      | .unset => [.promptRpmsave conf other]
      | .diff => [.showDiff other conf]
      | .maintainer => [.remove other]
      | .user => [.overwrite other conf]

/-- Modelled from the spec: the filesystem effect of the File Action
Executor primitives of the external `rpmconf` library (spec section 4.3,
not part of this repository).  `Remove(p)` deletes `p`; `Overwrite(src,
dst)` makes `dst`'s slot hold `src`'s former content and removes `src`;
`ShowDiff` makes no filesystem change.  The base-class interactive prompt
flow is likewise external; its effects never arise in the properties
proved here (the handlers never emit a prompt action in the modes they
cover), so it is recorded as leaving the modelled filesystem unchanged. -/
def applyAction (fs : Fs) : Action → Fs
  | .remove p => fun q => if q = p then .absent else fs q
  | .overwrite src dst => fun q =>
      if q = src then .absent
      else if q = dst then fs src
      else fs q
  | .showDiff _ _ => fs
  | .promptRpmnew _ _ => fs
  | .promptRpmsave _ _ => fs

/-- Applies a handler's actions in order. -/
def applyActions (fs : Fs) (acts : List Action) : Fs :=
  acts.foldl applyAction fs

/-- Number of difference-rendering (`show_diff`) calls in an action list. -/
def countShowDiff (acts : List Action) : Nat :=
  acts.countP fun a =>
    match a with
    | .showDiff _ _ => true
    | _ => false

/-- `errno.ENOENT` on Linux. -/
def ENOENT : Nat := 2

/-- `errno.EINTR` on Linux. -/
def EINTR : Nat := 4

/-- Outcome of one `Rpmconf.transaction` call, as far as it is observable:
skipped by the entry guard, completed normally, or a caught `SystemExit`
(the two debug-logged codes distinguished from the silently caught
rest). -/
inductive SessionResult
  | skipped
  | completed
  | suppressedMissingVar
  | suppressedMissingFile
  | suppressedOther (code : Nat)
deriving DecidableEq, Repr

/-- The arguments handed to the `UnattendedRpmConf` constructor by
`Rpmconf.transaction`. -/
structure RunContext where
  packages : List String
  frontend : Option String
  unattended : Unattended
deriving DecidableEq, Repr

/-- Embeds the `except SystemExit as e` clause of `Rpmconf.transaction`:
`if e.code == errno.ENOENT` logs a debug message, `elif e.code ==
errno.EINTR` logs a debug message, and there is no `else` and no
re-raise, so every other code is caught without any action. -/
def handleSystemExit (code : Nat) : SessionResult :=
  if code = ENOENT then .suppressedMissingVar
  else if code = EINTR then .suppressedMissingFile
  else .suppressedOther code

/-- Embeds `Rpmconf.transaction`.  `runExit = some c` models `rconf.run()`
raising `SystemExit(c)`; `none` models a normal return.  The result is
`.error c` exactly when an exception propagates to the host (which, per
the source's catch-all `except SystemExit` clause, never happens); the
second component is the `RunContext` of the constructed engine, `none`
when the entry guard returns before constructing it. -/
def transaction (unattended : Unattended) (interactive : Bool)
    (packages : List String) (frontend : Option String)
    (runExit : Option Nat) : Except Nat (SessionResult × Option RunContext) :=
  if unattended = Unattended.unset ∧ interactive = false then
    .ok (.skipped, none)
  else
    let ctx : RunContext := ⟨packages, frontend, unattended⟩
    match runExit with
    | none => .ok (.completed, some ctx)
    | some c => .ok (handleSystemExit c, some ctx)

/-- Embeds the `_interactive` computation of `Rpmconf.config`: interactive
unless stdin is absent or not a tty, or either assume flag is set. -/
def computeInteractive (stdinPresent stdinTty assumeyes assumeno : Bool) :
    Bool :=
  !((!stdinPresent || !stdinTty) || assumeyes || assumeno)

/-- Embeds the `unattended` parsing of `Rpmconf.config`: `none` models an
absent `main`/`unattended` key; a present value is kept only when it is
one of the three recognized strings, else reset to `None`. -/
def parseUnattended (opt : Option String) : Unattended :=
  match opt with
  | none => .unset
  | some s =>
      if s = "diff" then .diff
      else if s = "maintainer" then .maintainer
      else if s = "user" then .user
      else .unset

/-- Embeds `Rpmconf.resolved`: when the session is not interactive the
method returns at once, leaving `self.packages` untouched; otherwise it
appends the name of every installed package of every transaction item, in
order. -/
def resolved (interactive : Bool) (packages : List String)
    (installs : List (List String)) : List String :=
  if !interactive then packages
  else packages ++ installs.flatten

/-- Concrete filesystem: two regular files with equal content. -/
def fsEq : Fs := fun p =>
  if p = "a" then .regular "one"
  else if p = "b" then .regular "one"
  else .absent

/-- Concrete filesystem: two regular files with different content. -/
def fsNeq : Fs := fun p =>
  if p = "a" then .regular "x"
  else if p = "b" then .regular "y"
  else .absent

/-- Concrete filesystem: a broken symlink next to a regular file. -/
def fsBroken : Fs := fun p =>
  if p = "a" then .brokenSymlink
  else if p = "b" then .regular "one"
  else .absent

/-- Claim C5: for every pair of paths where neither is a broken symbolic
link (both read as regular files), `_test_duplicate` returns true if and
only if the two files' contents compare byte-for-byte equal. -/
theorem test_duplicate_iff_content_eq (fs : Fs) (a b x y : String)
    (ha : fs a = .regular x) (hb : fs b = .regular y) :
    test_duplicate fs a b = some true ↔ x = y := by
  unfold test_duplicate is_broken_symlink filecmp_cmp
  rw [ha, hb]
  simp

/-- Witness for C5: on two regular files with equal content,
`_test_duplicate` answers true. -/
theorem test_duplicate_iff_content_eq_witness :
    test_duplicate fsEq "a" "b" = some true :=
  (test_duplicate_iff_content_eq fsEq "a" "b" "one" "one" rfl rfl).mpr rfl

/-- Claim C6: if at least one of the two paths is a broken symbolic link,
`_test_duplicate` returns false regardless of byte content. -/
theorem test_duplicate_broken_symlink_false (fs : Fs) (a b : String)
    (h : is_broken_symlink fs a = true ∨ is_broken_symlink fs b = true) :
    test_duplicate fs a b = some false := by
  unfold test_duplicate
  rcases h with h | h <;> simp [h]

/-- Witness for C6: a broken symlink paired with a regular file is not a
duplicate. -/
theorem test_duplicate_broken_symlink_false_witness :
    test_duplicate fsBroken "a" "b" = some false :=
  test_duplicate_broken_symlink_false fsBroken "a" "b" (Or.inl rfl)

/-- Claim C2: in `maintainer` mode, on a non-duplicate rpmnew pair the
handler performs exactly `_overwrite(other, conf)`, after which `conf`'s
slot holds `other`'s former content and `other` is gone; on a
non-duplicate rpmsave pair it performs exactly `_remove(other)`, leaving
`conf` unchanged and removing `other`. -/
theorem maintainer_mode_actions (fs : Fs) (a b : String)
    (hdup : test_duplicate fs a b = some false) (hne : a ≠ b) :
    handle_rpmnew .maintainer fs a b = some [.overwrite b a] ∧
    applyActions fs [.overwrite b a] a = fs b ∧
    applyActions fs [.overwrite b a] b = .absent ∧
    handle_rpmsave .maintainer fs a b = some [.remove b] ∧
    applyActions fs [.remove b] a = fs a ∧
    applyActions fs [.remove b] b = .absent := by
  refine ⟨?_, ?_, ?_, ?_, ?_, ?_⟩ <;>
    simp [handle_rpmnew, handle_rpmsave, applyActions, applyAction, hdup, hne]

/-- Witness for C2: maintainer mode on a concrete non-duplicate pair. -/
theorem maintainer_mode_actions_witness :
    handle_rpmnew .maintainer fsNeq "a" "b" = some [.overwrite "b" "a"] ∧
    applyActions fsNeq [.overwrite "b" "a"] "a" = fsNeq "b" ∧
    applyActions fsNeq [.remove "b"] "b" = .absent :=
  ⟨(maintainer_mode_actions fsNeq "a" "b" (by decide) (by decide)).1,
   (maintainer_mode_actions fsNeq "a" "b" (by decide) (by decide)).2.1,
   (maintainer_mode_actions fsNeq "a" "b" (by decide) (by decide)).2.2.2.2.2⟩

/-- Claim C3: in `user` mode the filesystem action is inverted between the
variant kinds: on a non-duplicate rpmnew pair the handler performs exactly
`_remove(other)` (conf unchanged, other removed); on a non-duplicate
rpmsave pair it performs exactly `_overwrite(other, conf)` (conf's slot
gets other's content, other removed). -/
theorem user_mode_actions (fs : Fs) (a b : String)
    (hdup : test_duplicate fs a b = some false) (hne : a ≠ b) :
    handle_rpmnew .user fs a b = some [.remove b] ∧
    applyActions fs [.remove b] a = fs a ∧
    applyActions fs [.remove b] b = .absent ∧
    handle_rpmsave .user fs a b = some [.overwrite b a] ∧
    applyActions fs [.overwrite b a] a = fs b ∧
    applyActions fs [.overwrite b a] b = .absent := by
  refine ⟨?_, ?_, ?_, ?_, ?_, ?_⟩ <;>
    simp [handle_rpmnew, handle_rpmsave, applyActions, applyAction, hdup, hne]

/-- Witness for C3: user mode on a concrete non-duplicate pair. -/
theorem user_mode_actions_witness :
    handle_rpmnew .user fsNeq "a" "b" = some [.remove "b"] ∧
    handle_rpmsave .user fsNeq "a" "b" = some [.overwrite "b" "a"] :=
  ⟨(user_mode_actions fsNeq "a" "b" (by decide) (by decide)).1,
   (user_mode_actions fsNeq "a" "b" (by decide) (by decide)).2.2.2.1⟩

/-- Claim C4: on a duplicate pair, both handlers, in every mode (including
`diff` and the unset/interactive mode), perform exactly `_remove(other)`:
no diff, no prompt, and `conf`'s content is untouched. -/
theorem duplicate_short_circuit (fs : Fs) (a b : String) (u : Unattended)
    (hdup : test_duplicate fs a b = some true) (hne : a ≠ b) :
    handle_rpmnew u fs a b = some [.remove b] ∧
    handle_rpmsave u fs a b = some [.remove b] ∧
    applyActions fs [.remove b] a = fs a ∧
    applyActions fs [.remove b] b = .absent ∧
    countShowDiff [Action.remove b] = 0 := by
  refine ⟨?_, ?_, ?_, ?_, ?_⟩ <;>
    simp [handle_rpmnew, handle_rpmsave, applyActions, applyAction,
      countShowDiff, hdup, hne]

/-- Witness for C4: a duplicate pair in `diff` mode is silently removed. -/
theorem duplicate_short_circuit_witness :
    handle_rpmnew .diff fsEq "a" "b" = some [.remove "b"] ∧
    handle_rpmsave .unset fsEq "a" "b" = some [.remove "b"] :=
  ⟨(duplicate_short_circuit fsEq "a" "b" .diff (by decide) (by decide)).1,
   (duplicate_short_circuit fsEq "a" "b" .unset (by decide) (by decide)).2.1⟩

/-- Claim C7: in `diff` mode, on a non-duplicate pair, the rpmnew handler
performs exactly one `show_diff(conf, other)` call, the rpmsave handler
exactly one `show_diff(other, conf)` call, and the filesystem is unchanged
at every path. -/
theorem diff_mode_no_fs_action (fs : Fs) (a b : String)
    (hdup : test_duplicate fs a b = some false) :
    handle_rpmnew .diff fs a b = some [.showDiff a b] ∧
    handle_rpmsave .diff fs a b = some [.showDiff b a] ∧
    (∀ p, applyActions fs [Action.showDiff a b] p = fs p) ∧
    (∀ p, applyActions fs [Action.showDiff b a] p = fs p) ∧
    countShowDiff [Action.showDiff a b] = 1 ∧
    countShowDiff [Action.showDiff b a] = 1 := by
  refine ⟨?_, ?_, fun p => ?_, fun p => ?_, ?_, ?_⟩ <;>
    simp [handle_rpmnew, handle_rpmsave, applyActions, applyAction,
      countShowDiff, hdup]

/-- Witness for C7: diff mode on a concrete non-duplicate pair. -/
theorem diff_mode_no_fs_action_witness :
    handle_rpmnew .diff fsNeq "a" "b" = some [.showDiff "a" "b"] ∧
    handle_rpmsave .diff fsNeq "a" "b" = some [.showDiff "b" "a"] ∧
    applyActions fsNeq [Action.showDiff "a" "b"] "a" = fsNeq "a" :=
  ⟨(diff_mode_no_fs_action fsNeq "a" "b" (by decide)).1,
   (diff_mode_no_fs_action fsNeq "a" "b" (by decide)).2.1,
   (diff_mode_no_fs_action fsNeq "a" "b" (by decide)).2.2.1 "a"⟩

/-- Claim C1, counterexample: the claim says any termination code other
than ENOENT and EINTR propagates to the host as a session failure, but on
exit code 1 `Rpmconf.transaction` returns normally (the catch-all
`except SystemExit` clause has no re-raise), so no failure propagates. -/
theorem transaction_code_one_not_propagated :
    transaction .diff true [] none (some 1) =
      .ok (.suppressedOther 1, some ⟨[], none, .diff⟩) := rfl

/-- Claim C1, amended: exactly the codes ENOENT and EINTR are downgraded
to debug-level log messages, but every other termination code is also
caught by `Rpmconf.transaction` and silently suppressed — no `SystemExit`
code ever propagates to the host. -/
theorem transaction_suppresses_all_exit_codes (u : Unattended) (i : Bool)
    (p : List String) (fe : Option String) (c : Nat)
    (h : ¬(u = Unattended.unset ∧ i = false)) :
    transaction u i p fe (some c) =
      .ok (handleSystemExit c, some ⟨p, fe, u⟩) ∧
    (handleSystemExit c = .suppressedMissingVar ↔ c = ENOENT) ∧
    (handleSystemExit c = .suppressedMissingFile ↔ c = EINTR) := by
  refine ⟨?_, ?_, ?_⟩
  · unfold transaction
    rw [if_neg h]
  · unfold handleSystemExit
    split_ifs with h1 h2 <;> simp_all [ENOENT, EINTR]
  · unfold handleSystemExit
    split_ifs with h1 h2 <;> simp_all [ENOENT, EINTR]

/-- Witness for amended C1: exit code 7 in a running session is caught and
classified as a silently suppressed code. -/
theorem transaction_suppresses_all_exit_codes_witness :
    transaction .maintainer false ["pkg"] none (some 7) =
      .ok (handleSystemExit 7, some ⟨["pkg"], none, .maintainer⟩) :=
  (transaction_suppresses_all_exit_codes .maintainer false ["pkg"] none 7
    (by decide)).1

/-- Claim C8: with `unattended` unset and a non-interactive session,
`Rpmconf.transaction` returns at the entry guard: the resolution engine is
never constructed (`RunContext` is `none`), so no file action or prompt
can occur, and no error is raised, whatever `rconf.run()` would have
done. -/
theorem transaction_skips_noninteractive_unset (p : List String)
    (fe : Option String) (r : Option Nat) :
    transaction .unset false p fe r = .ok (.skipped, none) := rfl

/-- Claim C9: after `Rpmconf.config`, the mode is `diff`, `maintainer` or
`user` exactly when the `main`/`unattended` key holds that very string;
every other value, and an absent key, yield the unset mode, and parsing is
total (no error). -/
theorem parseUnattended_characterization (o : Option String) :
    (parseUnattended o = .diff ↔ o = some "diff") ∧
    (parseUnattended o = .maintainer ↔ o = some "maintainer") ∧
    (parseUnattended o = .user ↔ o = some "user") ∧
    (parseUnattended o = .unset ↔
      o ≠ some "diff" ∧ o ≠ some "maintainer" ∧ o ≠ some "user") := by
  match o with
  | none => simp [parseUnattended]
  | some s =>
      simp only [parseUnattended]
      split_ifs with h1 h2 h3 <;> simp_all

/-- Claim C10: in a non-interactive session (stdin absent or not a tty, or
assume-yes, or assume-no), `Rpmconf.resolved` returns before reading the
transaction, so the package list stays empty; hence an unattended
non-interactive session constructs its resolution engine with an empty
package list, whatever the transaction installed. -/
theorem noninteractive_empty_packages (sp st ay an : Bool)
    (installs : List (List String)) (u : Unattended) (fe : Option String)
    (r : Option Nat)
    (h : sp = false ∨ st = false ∨ ay = true ∨ an = true) :
    computeInteractive sp st ay an = false ∧
    resolved (computeInteractive sp st ay an) [] installs = [] ∧
    (u ≠ Unattended.unset →
      ∃ res, transaction u (computeInteractive sp st ay an)
        (resolved (computeInteractive sp st ay an) [] installs) fe r =
          .ok (res, some ⟨[], fe, u⟩)) := by
  have hint : computeInteractive sp st ay an = false := by
    rcases h with h | h | h | h <;> simp [computeInteractive, h]
  refine ⟨hint, ?_, ?_⟩
  · rw [hint]; rfl
  · intro hu
    rw [hint]
    unfold transaction
    rw [if_neg (fun hc => hu hc.1)]
    match r with
    | none => exact ⟨.completed, rfl⟩
    | some c => exact ⟨handleSystemExit c, rfl⟩

/-- Witness for C10: assume-yes alone makes the session non-interactive
and the engine's package list empty despite an installed package. -/
theorem noninteractive_empty_packages_witness :
    computeInteractive true true true false = false ∧
    resolved (computeInteractive true true true false) [] [["pkg"]] = [] :=
  ⟨(noninteractive_empty_packages true true true false [["pkg"]]
      .maintainer none none (Or.inr (Or.inr (Or.inl rfl)))).1,
   (noninteractive_empty_packages true true true false [["pkg"]]
      .maintainer none none (Or.inr (Or.inr (Or.inl rfl)))).2.1⟩

end RpmConf
